import Mathlib

/-!
Verification of the journal application's request-authorization and
CRUD-consistency contract.

The server side embeds `src/backend/src/routes/journal.ts` together with the
row shape of `src/backend/src/db/schema.ts`: the database is a list of rows,
drizzle's `select().where(...)` is `List.filter`, `orderBy(desc(createdAt))`
is a stable insertion sort on the `createdAt` key, `insert` appends a row and
`update`/`delete` map/filter the list.  Timestamps are naturals (server
clock ticks); generated ids and "now" are passed as explicit parameters.

The client side embeds `src/utils/api.ts`: platform storage reads and the
JSON session-blob parse are an oracle environment whose operations may fail
(`Except`), mirroring that `localStorage.getItem` / `SecureStore.getItemAsync`
and `JSON.parse` can throw; JavaScript truthiness on `string | null` values
is modelled explicitly.  `fetch` is embedded up to the request it would
issue: URL, method, header list (later entries override earlier ones, as in
object spread) and body.
-/

namespace JournalApp

/-- Row shape of the `journal_entries` table (src/backend/src/db/schema.ts).
The source column `type` is rendered `type_` because `type` is a Lean
keyword; `mood` is the only nullable column. -/
structure Entry where
  id : String
  userId : String
  title : String
  content : String
  mood : Option String
  type_ : String
  createdAt : Nat
  updatedAt : Nat
deriving Repr, DecidableEq

/-- The authenticated session resolved by `requireAuth`: only `user.id` is
read by the handlers. -/
structure Session where
  userId : String
deriving Repr, DecidableEq

/-- Bodies a handler can send: a single row, a row list, an error object
`\x7berror: string\x7d`, or the delete success object `\x7bsuccess: true\x7d`. -/
inductive RespBody where
  | entry : Entry → RespBody
  | entries : List Entry → RespBody
  | errorMsg : String → RespBody
  | success : RespBody
deriving Repr, DecidableEq

/-- An HTTP response: status code plus body. -/
structure Response where
  status : Nat
  body : RespBody
deriving Repr, DecidableEq

/-- JavaScript truthiness of a `string | null | undefined` value: `none`
(absent or null) and the empty string are falsy. -/
def strTruthy : Option String → Bool
  | none => false
  | some s => s != ""

/-- The ordering used by `orderBy(desc(journalEntries.createdAt))`:
`a` may come before `b` when `b.createdAt ≤ a.createdAt`. -/
def createdAtDesc (a b : Entry) : Prop := b.createdAt ≤ a.createdAt

instance : DecidableRel createdAtDesc :=
  fun a b => inferInstanceAs (Decidable (b.createdAt ≤ a.createdAt))

instance : IsTotal Entry createdAtDesc :=
  ⟨fun a b => le_total b.createdAt a.createdAt⟩

instance : IsTrans Entry createdAtDesc :=
  ⟨fun _ _ _ hab hbc => le_trans hbc hab⟩

/-- `ORDER BY created_at DESC` modelled as a stable sort (the SQL source
names no secondary sort key, so rows with equal `createdAt` keep their
storage order). -/
def sortByCreatedAtDesc (l : List Entry) : List Entry :=
  List.insertionSort createdAtDesc l

/-- GET /api/journal/entries: list the caller's rows, most recent first. -/
def listEntries (db : List Entry) (session : Option Session) : Response :=
  match session with
  | none => ⟨401, .errorMsg "Unauthorized"⟩
  | some s =>
    ⟨200, .entries (sortByCreatedAtDesc (db.filter (fun e => e.userId == s.userId)))⟩

/-- GET /api/journal/entries/:id: select where `id` and `userId` both match;
zero rows is a 404, otherwise the first row is returned. -/
def getEntry (db : List Entry) (session : Option Session) (id : String) : Response :=
  match session with
  | none => ⟨401, .errorMsg "Unauthorized"⟩
  | some s =>
    match db.filter (fun e => e.id == id && e.userId == s.userId) with
    | [] => ⟨404, .errorMsg "Journal entry not found"⟩
    | e :: _ => ⟨200, .entry e⟩

/-- Request body of POST /api/journal/entries.  `none` on `title`/`content`/
`type_` models a missing field (JS `undefined`); `mood` distinguishes a
missing key (`none`) from an explicit JSON null (`some none`).  `ownerId` is
a field the client may send but the handler never destructures. -/
structure CreateBody where
  title : Option String
  content : Option String
  mood : Option (Option String)
  type_ : Option String
  ownerId : Option String
deriving Repr, DecidableEq

/-- The row literal passed to `.values(...)` on create: `userId` comes from
the session, `mood` is `mood || null`, and the database fills `id`,
`createdAt` and `updatedAt` (both default to now). -/
def createValues (s : Session) (body : CreateBody) (newId : String) (now : Nat) : Entry :=
  { id := newId
    userId := s.userId
    title := body.title.getD ""
    content := body.content.getD ""
    mood := match body.mood with
            | some (some m) => if m == "" then none else some m
            | _ => none
    type_ := body.type_.getD "note"
    createdAt := now
    updatedAt := now }

/-- POST /api/journal/entries: destructure with `type = 'note'` default,
reject falsy title/content, reject a type other than note/checklist, then
insert and answer 201 with the created row. -/
def createEntry (db : List Entry) (session : Option Session) (body : CreateBody)
    (newId : String) (now : Nat) : Response × List Entry :=
  match session with
  | none => (⟨401, .errorMsg "Unauthorized"⟩, db)
  | some s =>
    let type_ := body.type_.getD "note"
    if !(strTruthy body.title) || !(strTruthy body.content) then
      (⟨400, .errorMsg "Title and content are required"⟩, db)
    else if !(type_ == "note") && !(type_ == "checklist") then
      (⟨400, .errorMsg "Type must be \"note\" or \"checklist\""⟩, db)
    else
      (⟨201, .entry (createValues s body newId now)⟩, db ++ [createValues s body newId now])

/-- Request body of PUT /api/journal/entries/:id: every field optional,
`none` meaning the key is absent from the JSON body; `mood` again separates
absence (`none`) from an explicit JSON null (`some none`). -/
structure UpdateBody where
  title : Option String
  content : Option String
  mood : Option (Option String)
  type_ : Option String
deriving Repr, DecidableEq

/-- The sparse `updateData` object applied to a row: `updatedAt` is always
set to now; each other column is set only when the body carries the key. -/
def applyPatch (body : UpdateBody) (now : Nat) (e : Entry) : Entry :=
  { e with
    updatedAt := now
    title := body.title.getD e.title
    content := body.content.getD e.content
    mood := match body.mood with
            | none => e.mood
            | some m => m
    type_ := body.type_.getD e.type_ }

/-- PUT /api/journal/entries/:id: ownership check (404 on zero rows), then
type validation, then `update ... where id = :id` and answer with
`updated[0]`.  The empty `updated` branch cannot be reached once the
ownership check has found a row; the JS source would return `undefined`
there. -/
def updateEntry (db : List Entry) (session : Option Session) (id : String)
    (body : UpdateBody) (now : Nat) : Response × List Entry :=
  match session with
  | none => (⟨401, .errorMsg "Unauthorized"⟩, db)
  | some s =>
    match db.filter (fun e => e.id == id && e.userId == s.userId) with
    | [] => (⟨404, .errorMsg "Journal entry not found"⟩, db)
    | _ :: _ =>
      let typeInvalid := match body.type_ with
        | some t => !(t == "note") && !(t == "checklist")
        | none => false
      if typeInvalid then
        (⟨400, .errorMsg "Type must be \"note\" or \"checklist\""⟩, db)
      else
        let newDb := db.map (fun e => if e.id == id then applyPatch body now e else e)
        match newDb.filter (fun e => e.id == id) with
        | [] => (⟨500, .errorMsg "Internal error"⟩, newDb)
        | u :: _ => (⟨200, .entry u⟩, newDb)

/-- DELETE /api/journal/entries/:id: ownership check (404 on zero rows),
then `delete ... where id = :id` and answer `\x7bsuccess: true\x7d`. -/
def deleteEntry (db : List Entry) (session : Option Session) (id : String) :
    Response × List Entry :=
  match session with
  | none => (⟨401, .errorMsg "Unauthorized"⟩, db)
  | some s =>
    match db.filter (fun e => e.id == id && e.userId == s.userId) with
    | [] => (⟨404, .errorMsg "Journal entry not found"⟩, db)
    | _ :: _ => (⟨200, .success⟩, db.filter (fun e => !(e.id == id)))

/-- Oracle environment for `getBearerToken` (src/utils/api.ts).  The two
storage reads and the session-blob decode can each fail (a thrown
exception) or yield a `string | null` value; `parseSessionToken s` stands
for `JSON.parse(s).token`, with `none` covering a missing or null field. -/
structure StorageEnv where
  readPrimary : Except String (Option String)
  readSession : Except String (Option String)
  parseSessionToken : String → Except String (Option String)

/-- getBearerToken: primary slot first (returned when truthy), else the
`journal-app_session` blob is read and, when truthy, parsed; the parsed
token is returned via `session.token || null`.  The inner catch swallows
parse errors and falls through to `return null`; the outer catch turns any
storage failure into `null`. -/
def getBearerToken (env : StorageEnv) : Option String :=
  match env.readPrimary with
  | .error _ => none
  | .ok token =>
    if strTruthy token then token
    else
      match env.readSession with
      | .error _ => none
      | .ok sessionData =>
        match sessionData with
        | none => none
        | some s =>
          if s == "" then none
          else
            match env.parseSessionToken s with
            | .error _ => none
            | .ok tok => if strTruthy tok then tok else none

/-- Fetch options as built by the client helpers: method, header object
(modelled as a list where a later entry overrides an earlier one with the
same key, like object spread), optional body. -/
structure RequestInit where
  method : Option String
  headers : List (String × String)
  body : Option String
deriving Repr, DecidableEq

/-- The request `fetch` would be called with. -/
structure FetchRequest where
  url : String
  method : Option String
  headers : List (String × String)
  body : Option String
deriving Repr, DecidableEq

/-- Value of a key in a spread-merged header object: the last occurrence
wins. -/
def headerLookup (hs : List (String × String)) (k : String) : Option String :=
  hs.foldl (fun acc p => if p.1 == k then some p.2 else acc) none

/-- apiCall up to the issued request: fail fast when the backend URL is
unset, otherwise fetch `BACKEND_URL + endpoint` with a `Content-Type`
header that caller-supplied headers may override. -/
def apiCallRequest (backendUrl : String) (endpoint : String)
    (options : RequestInit) : Except String FetchRequest :=
  if backendUrl == "" then
    .error "Backend URL not configured. Please rebuild the app."
  else
    .ok { url := backendUrl ++ endpoint
          method := options.method
          headers := ("Content-Type", "application/json") :: options.headers
          body := options.body }

/-- The `session?.data?.session` chain of `authClient.getSession()`:
collapsed to `none` when any level is missing; `token` is `none` when the
field is missing or null. -/
structure AuthSession where
  token : Option String
deriving Repr, DecidableEq

/-- authenticatedApiCall up to the issued request: reject a falsy session
token, otherwise forward to apiCall with `Authorization: Bearer <token>`
appended after the caller's headers. -/
def authenticatedApiCallRequest (backendUrl : String) (session : Option AuthSession)
    (endpoint : String) (options : RequestInit) : Except String FetchRequest :=
  match session with
  | none => .error "Not authenticated. Please sign in."
  | some sess =>
    match sess.token with
    | none => .error "Not authenticated. Please sign in."
    | some t =>
      if t == "" then .error "Not authenticated. Please sign in."
      else
        apiCallRequest backendUrl endpoint
          { options with headers := options.headers ++ [("Authorization", "Bearer " ++ t)] }

/-- Narrowing a selection: a `where` clause that already returns no rows
still returns none after a further conjunct is added. -/
theorem filter_and_nil (p q : Entry → Bool) :
    ∀ l : List Entry, l.filter p = [] → l.filter (fun x => p x && q x) = [] := by
  intro l h
  refine List.filter_eq_nil_iff.mpr fun a ha hpq => ?_
  have hp : p a := by
    rcases Bool.and_eq_true .. |>.mp hpq with ⟨h1, _⟩
    exact h1
  exact (List.filter_eq_nil_iff.mp h) a ha hp

/-- Narrowing a selection that returns exactly one row keeps that row when
it satisfies the extra conjunct. -/
theorem filter_and_single (p q : Entry → Bool) (e : Entry)
    (hq : q e = true) :
    ∀ l : List Entry, l.filter p = [e] → l.filter (fun x => p x && q x) = [e]
  | [], h => by simp at h
  | a :: t, h => by
    rw [List.filter_cons] at h ⊢
    by_cases hp : p a
    · simp only [hp, if_true] at h
      have ha : a = e := (List.cons_eq_cons.mp h).1
      have ht : t.filter p = [] := (List.cons_eq_cons.mp h).2
      subst ha
      simp [hp, hq, filter_and_nil p q t ht]
    · simp only [Bool.not_eq_true] at hp
      simp only [hp, if_false, Bool.false_and] at h ⊢
      exact filter_and_single p q e hq t h

/-- A row-wise update guarded by an id test commutes with selecting by
that id, when the update preserves the id column. -/
theorem filter_map_patch (f : Entry → Entry) (hf : ∀ x, (f x).id = x.id) (i : String) :
    ∀ db : List Entry,
      (db.map (fun x => if x.id == i then f x else x)).filter (fun x => x.id == i) =
        (db.filter (fun x => x.id == i)).map f
  | [] => rfl
  | a :: t => by
    have ih := filter_map_patch f hf i t
    simp only [List.map_cons, List.filter_cons, ih]
    by_cases ha : a.id = i
    · have h1 : (a.id == i) = true := by simp [ha]
      have h2 : ((f a).id == i) = true := by simp [hf, ha]
      simp [h1, h2]
    · have h1 : (a.id == i) = false := by simp [ha]
      simp [h1]

/-- Every row surviving a filter satisfies the filter. -/
theorem all_filter_self (p : Entry → Bool) (l : List Entry) :
    (l.filter p).all p = true :=
  List.all_eq_true.mpr fun _ hx => (List.mem_filter.mp hx).2

/-- In a spread-merged header object the last binding of a key wins. -/
theorem headerLookup_append_last (l : List (String × String)) (k v : String) :
    headerLookup (l ++ [(k, v)]) k = some v := by
  simp [headerLookup, List.foldl_append]

/-- Shape of a successful update: when the table holds exactly one row with
the requested id, that row is the caller's, and the body's type is valid,
the handler patches that row, bumps `updatedAt`, and answers 200 with the
patched row. -/
theorem updateEntry_found (db : List Entry) (s : Session) (i : String)
    (body : UpdateBody) (now : Nat) (e : Entry)
    (hid : db.filter (fun x => x.id == i) = [e])
    (howner : e.userId = s.userId)
    (htype : body.type_ = none ∨ body.type_ = some "note" ∨ body.type_ = some "checklist") :
    updateEntry db (some s) i body now =
      (⟨200, .entry (applyPatch body now e)⟩,
       db.map (fun x => if x.id == i then applyPatch body now x else x)) := by
  have hq : (fun x : Entry => x.userId == s.userId) e = true := by simp [howner]
  have hfilter : db.filter (fun x => x.id == i && x.userId == s.userId) = [e] :=
    filter_and_single _ _ e hq db hid
  have hti : (match body.type_ with
      | some t => !(t == "note") && !(t == "checklist")
      | none => false) = false := by
    rcases htype with h | h | h <;> simp [h]
  have hmapfilter :
      (db.map (fun x => if x.id == i then applyPatch body now x else x)).filter
        (fun x => x.id == i) = [applyPatch body now e] := by
    rw [filter_map_patch (applyPatch body now) (fun _ => rfl) i db, hid]
    rfl
  simp only [updateEntry, hfilter, hti, hmapfilter, Bool.false_eq_true, if_false]

/-- C1: for an authenticated GET/PUT/DELETE on /api/journal/entries/:id,
when no stored row matches both the requested id and the caller's user id —
whether the id is absent entirely or the row belongs to another principal —
each handler answers 404 with body error "Journal entry not found" and the
table is left untouched, so no later pipeline step runs. -/
theorem byId_missing_or_foreign_is_404 (db : List Entry) (s : Session) (i : String)
    (body : UpdateBody) (now : Nat)
    (h : ∀ e ∈ db, ¬(e.id = i ∧ e.userId = s.userId)) :
    getEntry db (some s) i = ⟨404, .errorMsg "Journal entry not found"⟩ ∧
    updateEntry db (some s) i body now =
      (⟨404, .errorMsg "Journal entry not found"⟩, db) ∧
    deleteEntry db (some s) i = (⟨404, .errorMsg "Journal entry not found"⟩, db) := by
  have hfil : db.filter (fun e => e.id == i && e.userId == s.userId) = [] := by
    refine List.filter_eq_nil_iff.mpr fun a ha hpa => h a ha ?_
    simpa using hpa
  refine ⟨?_, ?_, ?_⟩ <;> simp [getEntry, updateEntry, deleteEntry, hfil]

/-- Witness for C1 at a concrete table: the row with id e1 exists but is
owned by another principal, and all three handlers answer the same 404. -/
theorem byId_missing_or_foreign_is_404_witness :
    getEntry [⟨"e1", "owner", "T", "C", none, "note", 1, 1⟩] (some ⟨"me"⟩) "e1" =
      ⟨404, .errorMsg "Journal entry not found"⟩ ∧
    updateEntry [⟨"e1", "owner", "T", "C", none, "note", 1, 1⟩] (some ⟨"me"⟩) "e1"
        ⟨none, none, none, none⟩ 2 =
      (⟨404, .errorMsg "Journal entry not found"⟩,
       [⟨"e1", "owner", "T", "C", none, "note", 1, 1⟩]) ∧
    deleteEntry [⟨"e1", "owner", "T", "C", none, "note", 1, 1⟩] (some ⟨"me"⟩) "e1" =
      (⟨404, .errorMsg "Journal entry not found"⟩,
       [⟨"e1", "owner", "T", "C", none, "note", 1, 1⟩]) :=
  byId_missing_or_foreign_is_404 _ _ _ _ _ (by decide)

/-- C2: a successful create (201) stores and returns a row whose userId is
the session user's id; the ownerId field a client may put in the body is
never read, so bodies differing only in it produce identical outcomes. -/
theorem create_owner_is_caller (db : List Entry) (s : Session) (body : CreateBody)
    (newId : String) (now : Nat) (o₁ o₂ : Option String)
    (hsucc : (createEntry db (some s) body newId now).1.status = 201) :
    createEntry db (some s) { body with ownerId := o₁ } newId now =
      createEntry db (some s) { body with ownerId := o₂ } newId now ∧
    (createEntry db (some s) body newId now).1.body =
      .entry (createValues s body newId now) ∧
    (createValues s body newId now).userId = s.userId ∧
    (createEntry db (some s) body newId now).2 = db ++ [createValues s body newId now] := by
  refine ⟨rfl, ?_⟩
  simp only [createEntry] at hsucc ⊢
  split_ifs at hsucc ⊢
  · simp at hsucc
  · simp at hsucc
  · exact ⟨rfl, rfl, rfl⟩

/-- Witness for C2: a concrete create whose body carries ownerId EVIL is
stored under the caller u1, and swapping that field changes nothing. -/
theorem create_owner_is_caller_witness :
    createEntry [] (some ⟨"u1"⟩)
        { title := some "Day 1", content := some "Good day",
          mood := some (some "happy"), type_ := none, ownerId := some "EVIL" }
        "id1" 3 =
      createEntry [] (some ⟨"u1"⟩)
        { title := some "Day 1", content := some "Good day",
          mood := some (some "happy"), type_ := none, ownerId := none }
        "id1" 3 ∧
    (createEntry [] (some ⟨"u1"⟩)
        ⟨some "Day 1", some "Good day", some (some "happy"), none, some "EVIL"⟩
        "id1" 3).1.body =
      .entry (createValues ⟨"u1"⟩
        ⟨some "Day 1", some "Good day", some (some "happy"), none, some "EVIL"⟩ "id1" 3) ∧
    (createValues ⟨"u1"⟩
        ⟨some "Day 1", some "Good day", some (some "happy"), none, some "EVIL"⟩
        "id1" 3).userId = "u1" ∧
    (createEntry [] (some ⟨"u1"⟩)
        ⟨some "Day 1", some "Good day", some (some "happy"), none, some "EVIL"⟩
        "id1" 3).2 =
      [] ++ [createValues ⟨"u1"⟩
        ⟨some "Day 1", some "Good day", some (some "happy"), none, some "EVIL"⟩ "id1" 3] :=
  create_owner_is_caller [] ⟨"u1"⟩
    ⟨some "Day 1", some "Good day", some (some "happy"), none, some "EVIL"⟩
    "id1" 3 (some "EVIL") none (by decide)

/-- C3: PUT on an owned entry patches exactly the fields present in the
body — each absent field keeps its prior value, id/userId/createdAt are
never touched — and sets updatedAt to the server's now on every successful
update, a no-op patch included. -/
theorem update_is_partial_merge (db : List Entry) (s : Session) (i : String)
    (body : UpdateBody) (now : Nat) (e : Entry)
    (hid : db.filter (fun x => x.id == i) = [e])
    (howner : e.userId = s.userId)
    (htype : body.type_ = none ∨ body.type_ = some "note" ∨ body.type_ = some "checklist") :
    updateEntry db (some s) i body now =
      (⟨200, .entry (applyPatch body now e)⟩,
       db.map (fun x => if x.id == i then applyPatch body now x else x)) ∧
    (applyPatch body now e).title = body.title.getD e.title ∧
    (applyPatch body now e).content = body.content.getD e.content ∧
    (applyPatch body now e).mood = body.mood.getD e.mood ∧
    (applyPatch body now e).type_ = body.type_.getD e.type_ ∧
    (applyPatch body now e).updatedAt = now ∧
    (applyPatch body now e).id = e.id ∧
    (applyPatch body now e).userId = e.userId ∧
    (applyPatch body now e).createdAt = e.createdAt := by
  refine ⟨updateEntry_found db s i body now e hid howner htype,
    rfl, rfl, ?_, rfl, rfl, rfl, rfl, rfl⟩
  cases h : body.mood <;> simp [applyPatch, h]

/-- Witness for C3: a mood-only patch on a concrete owned entry leaves
title, content and type at their prior values and bumps updatedAt. -/
theorem update_is_partial_merge_witness :
    updateEntry [⟨"e1", "u1", "T", "C", some "calm", "note", 10, 10⟩] (some ⟨"u1"⟩) "e1"
        ⟨none, none, some (some "happy"), none⟩ 20 =
      (⟨200, .entry (applyPatch ⟨none, none, some (some "happy"), none⟩ 20
          ⟨"e1", "u1", "T", "C", some "calm", "note", 10, 10⟩)⟩,
       ([⟨"e1", "u1", "T", "C", some "calm", "note", 10, 10⟩] : List Entry).map
         (fun x => if x.id == "e1"
           then applyPatch ⟨none, none, some (some "happy"), none⟩ 20 x else x)) ∧
    (applyPatch ⟨none, none, some (some "happy"), none⟩ 20
      ⟨"e1", "u1", "T", "C", some "calm", "note", 10, 10⟩).title =
        (none : Option String).getD "T" ∧
    (applyPatch ⟨none, none, some (some "happy"), none⟩ 20
      ⟨"e1", "u1", "T", "C", some "calm", "note", 10, 10⟩).content =
        (none : Option String).getD "C" ∧
    (applyPatch ⟨none, none, some (some "happy"), none⟩ 20
      ⟨"e1", "u1", "T", "C", some "calm", "note", 10, 10⟩).mood =
        (some (some "happy") : Option (Option String)).getD (some "calm") ∧
    (applyPatch ⟨none, none, some (some "happy"), none⟩ 20
      ⟨"e1", "u1", "T", "C", some "calm", "note", 10, 10⟩).type_ =
        (none : Option String).getD "note" ∧
    (applyPatch ⟨none, none, some (some "happy"), none⟩ 20
      ⟨"e1", "u1", "T", "C", some "calm", "note", 10, 10⟩).updatedAt = 20 ∧
    (applyPatch ⟨none, none, some (some "happy"), none⟩ 20
      ⟨"e1", "u1", "T", "C", some "calm", "note", 10, 10⟩).id = "e1" ∧
    (applyPatch ⟨none, none, some (some "happy"), none⟩ 20
      ⟨"e1", "u1", "T", "C", some "calm", "note", 10, 10⟩).userId = "u1" ∧
    (applyPatch ⟨none, none, some (some "happy"), none⟩ 20
      ⟨"e1", "u1", "T", "C", some "calm", "note", 10, 10⟩).createdAt = 10 :=
  update_is_partial_merge [⟨"e1", "u1", "T", "C", some "calm", "note", 10, 10⟩]
    ⟨"u1"⟩ "e1" ⟨none, none, some (some "happy"), none⟩ 20
    ⟨"e1", "u1", "T", "C", some "calm", "note", 10, 10⟩
    (by decide) rfl (Or.inl rfl)

/-- C4 counterexample: the create handler checks only JavaScript falsiness
of title and content — it never trims — so a whitespace-only title is
accepted: the response is 201, not the 400 the claim requires, and a row is
inserted. -/
theorem create_whitespace_title_accepted :
    (createEntry [] (some ⟨"u1"⟩) ⟨some " ", some "x", none, none, none⟩
      "id1" 7).1.status = 201 ∧
    (createEntry [] (some ⟨"u1"⟩) ⟨some " ", some "x", none, none, none⟩
      "id1" 7).2 ≠ [] := by
  exact ⟨rfl, by decide⟩

/-- C4 amended: a create whose title or content is missing or the empty
string (JS-falsy) is rejected with 400 error "Title and content are
required" and inserts nothing; whitespace-only strings are truthy and pass
the check. -/
theorem create_rejects_falsy_title_content (db : List Entry) (s : Session)
    (body : CreateBody) (newId : String) (now : Nat)
    (h : body.title = none ∨ body.title = some "" ∨
         body.content = none ∨ body.content = some "") :
    createEntry db (some s) body newId now =
      (⟨400, .errorMsg "Title and content are required"⟩, db) := by
  have hc : (!(strTruthy body.title) || !(strTruthy body.content)) = true := by
    rcases h with h | h | h | h <;> simp [h, strTruthy]
  simp [createEntry, hc]

/-- Witness for C4 amended: an empty-string title is rejected with 400. -/
theorem create_rejects_falsy_title_content_witness :
    createEntry [] (some ⟨"u1"⟩) ⟨some "", some "x", none, none, none⟩ "id1" 7 =
      (⟨400, .errorMsg "Title and content are required"⟩, []) :=
  create_rejects_falsy_title_content [] ⟨"u1"⟩
    ⟨some "", some "x", none, none, none⟩ "id1" 7 (Or.inr (Or.inl rfl))

/-- C5 counterexample: the update handler never validates title or content,
so a PUT with title set to the empty string succeeds (200) and leaves the
stored entry with an empty title — the claimed invariant fails. -/
theorem update_can_store_empty_title :
    (updateEntry [⟨"e5", "u5", "Hello", "World", none, "note", 1, 1⟩] (some ⟨"u5"⟩) "e5"
        ⟨some "", none, none, none⟩ 2).1.status = 200 ∧
    ((updateEntry [⟨"e5", "u5", "Hello", "World", none, "note", 1, 1⟩] (some ⟨"u5"⟩) "e5"
        ⟨some "", none, none, none⟩ 2).2.map Entry.title) = [""] := by
  constructor <;> rfl

/-- C5 amended: the non-emptiness invariant is preserved by creates — any
create on a table of entries with non-empty title and content yields a
table with the same property — but not by updates, which perform no such
validation. -/
theorem create_preserves_nonempty (db : List Entry) (session : Option Session)
    (body : CreateBody) (newId : String) (now : Nat)
    (hinv : db.all (fun e => e.title != "" && e.content != "") = true) :
    ((createEntry db session body newId now).2.all
      (fun e => e.title != "" && e.content != "")) = true := by
  match session with
  | none => simpa [createEntry] using hinv
  | some s =>
    simp only [createEntry]
    split_ifs with h1 h2
    · simpa using hinv
    · simpa using hinv
    · simp only [Bool.or_eq_true, Bool.not_eq_true', not_or, Bool.not_eq_false] at h1
      obtain ⟨ht, hc⟩ := h1
      rw [List.all_append]
      refine (Bool.and_eq_true ..).mpr ⟨hinv, ?_⟩
      cases hbt : body.title with
      | none => rw [hbt] at ht; simp [strTruthy] at ht
      | some tt =>
        cases hbc : body.content with
        | none => rw [hbc] at hc; simp [strTruthy] at hc
        | some cc =>
          rw [hbt] at ht; rw [hbc] at hc
          simp only [strTruthy] at ht hc
          simp [createValues, hbt, hbc, ht, hc]

/-- Witness for C5 amended: a concrete valid create keeps every stored
title and content non-empty. -/
theorem create_preserves_nonempty_witness :
    (([⟨"e0", "u1", "A", "B", none, "note", 1, 1⟩] : List Entry).all
      (fun e => e.title != "" && e.content != "")) = true ∧
    ((createEntry [⟨"e0", "u1", "A", "B", none, "note", 1, 1⟩] (some ⟨"u1"⟩)
        ⟨some "Day", some "Text", none, none, none⟩ "id1" 2).2.all
      (fun e => e.title != "" && e.content != "")) = true :=
  ⟨by decide,
   create_preserves_nonempty [⟨"e0", "u1", "A", "B", none, "note", 1, 1⟩] (some ⟨"u1"⟩)
     ⟨some "Day", some "Text", none, none, none⟩ "id1" 2 (by decide)⟩

/-- C6 counterexample: two tables holding the same two rows of one caller
with equal createdAt but in opposite storage order are listed in their
respective storage orders — the same row set is returned in two different
orders, so ties are not broken by id (nor by any function of the row set). -/
theorem list_tie_order_not_by_id :
    listEntries [⟨"b", "u", "tb", "cb", none, "note", 5, 5⟩,
                 ⟨"a", "u", "ta", "ca", none, "note", 5, 5⟩] (some ⟨"u"⟩) =
      ⟨200, .entries [⟨"b", "u", "tb", "cb", none, "note", 5, 5⟩,
                      ⟨"a", "u", "ta", "ca", none, "note", 5, 5⟩]⟩ ∧
    listEntries [⟨"a", "u", "ta", "ca", none, "note", 5, 5⟩,
                 ⟨"b", "u", "tb", "cb", none, "note", 5, 5⟩] (some ⟨"u"⟩) =
      ⟨200, .entries [⟨"a", "u", "ta", "ca", none, "note", 5, 5⟩,
                      ⟨"b", "u", "tb", "cb", none, "note", 5, 5⟩]⟩ ∧
    ("b" : String) ≠ "a" :=
  ⟨rfl, rfl, by decide⟩

/-- C6 amended: the list endpoint returns exactly the caller's entries
(a permutation of the rows whose userId is the caller's) ordered by
createdAt descending; the query names no secondary sort key, so rows with
equal createdAt keep their storage order, and being a pure function of the
table the listing is identical across calls with no intervening writes. -/
theorem list_returns_owned_sorted (db : List Entry) (s : Session) :
    listEntries db (some s) =
      ⟨200, .entries (sortByCreatedAtDesc (db.filter (fun e => e.userId == s.userId)))⟩ ∧
    List.Perm (sortByCreatedAtDesc (db.filter (fun e => e.userId == s.userId)))
      (db.filter (fun e => e.userId == s.userId)) ∧
    List.Sorted createdAtDesc
      (sortByCreatedAtDesc (db.filter (fun e => e.userId == s.userId))) :=
  ⟨rfl, List.perm_insertionSort _ _, List.sorted_insertionSort _ _⟩

/-- C7: deleting an owned entry answers 200 with the success object and
removes the row for good — no row with that id survives — so repeating the
DELETE answers 404, as does a DELETE for an id no row ever had. -/
theorem delete_then_redelete_404 (db db₂ : List Entry) (s : Session) (i : String)
    (e : Entry)
    (hid : db.filter (fun x => x.id == i) = [e])
    (howner : e.userId = s.userId)
    (hnone : db₂.filter (fun x => x.id == i) = []) :
    deleteEntry db (some s) i = (⟨200, .success⟩, db.filter (fun x => !(x.id == i))) ∧
    (db.filter (fun x => !(x.id == i))).all (fun x => !(x.id == i)) = true ∧
    deleteEntry (db.filter (fun x => !(x.id == i))) (some s) i =
      (⟨404, .errorMsg "Journal entry not found"⟩, db.filter (fun x => !(x.id == i))) ∧
    deleteEntry db₂ (some s) i = (⟨404, .errorMsg "Journal entry not found"⟩, db₂) := by
  have hq : (fun x : Entry => x.userId == s.userId) e = true := by simp [howner]
  have hfil : db.filter (fun x => x.id == i && x.userId == s.userId) = [e] :=
    filter_and_single _ _ e hq db hid
  have hnil : (db.filter (fun x => !(x.id == i))).filter
      (fun x => x.id == i && x.userId == s.userId) = [] := by
    refine List.filter_eq_nil_iff.mpr fun a ha hpa => ?_
    have hmem := (List.mem_filter.mp ha).2
    rcases (Bool.and_eq_true ..).mp hpa with ⟨hai, _⟩
    simp [hai] at hmem
  have hnil₂ : db₂.filter (fun x => x.id == i && x.userId == s.userId) = [] :=
    filter_and_nil _ _ db₂ hnone
  refine ⟨?_, all_filter_self _ db, ?_, ?_⟩ <;>
    simp [deleteEntry, hfil, hnil, hnil₂]

/-- Witness for C7 at a concrete table: delete an owned row, observe the
success object and the empty table, then observe 404 on the repeat and on
an id that never existed. -/
theorem delete_then_redelete_404_witness :
    deleteEntry [⟨"e1", "u1", "T", "C", none, "note", 1, 1⟩] (some ⟨"u1"⟩) "e1" =
      (⟨200, .success⟩,
       ([⟨"e1", "u1", "T", "C", none, "note", 1, 1⟩] : List Entry).filter (fun x => !(x.id == "e1"))) ∧
    (([⟨"e1", "u1", "T", "C", none, "note", 1, 1⟩] : List Entry).filter
      (fun x => !(x.id == "e1"))).all (fun x => !(x.id == "e1")) = true ∧
    deleteEntry (([⟨"e1", "u1", "T", "C", none, "note", 1, 1⟩] : List Entry).filter
        (fun x => !(x.id == "e1"))) (some ⟨"u1"⟩) "e1" =
      (⟨404, .errorMsg "Journal entry not found"⟩,
       ([⟨"e1", "u1", "T", "C", none, "note", 1, 1⟩] : List Entry).filter (fun x => !(x.id == "e1"))) ∧
    deleteEntry [] (some ⟨"u1"⟩) "e1" =
      (⟨404, .errorMsg "Journal entry not found"⟩, []) :=
  delete_then_redelete_404 [⟨"e1", "u1", "T", "C", none, "note", 1, 1⟩] [] ⟨"u1"⟩ "e1"
    ⟨"e1", "u1", "T", "C", none, "note", 1, 1⟩ (by decide) rfl rfl

/-- C8: getBearerToken against an arbitrary storage environment: a truthy
primary token is returned no matter how the fallback would behave; a
throwing primary or secondary read, a missing or empty blob, a failing
parse, and a missing token field each yield null instead of an exception;
a truthy token parsed out of the blob is returned, also when the primary
slot held the falsy empty string. -/
theorem getBearerToken_fail_closed (t blob tok e₁ e₂ e₃ : String)
    (r : Except String (Option String))
    (parse : String → Except String (Option String))
    (ht : t ≠ "") (hblob : blob ≠ "") (htok : tok ≠ "") :
    getBearerToken ⟨.ok (some t), r, parse⟩ = some t ∧
    getBearerToken ⟨.error e₁, r, parse⟩ = none ∧
    getBearerToken ⟨.ok none, .error e₂, parse⟩ = none ∧
    getBearerToken ⟨.ok none, .ok none, parse⟩ = none ∧
    getBearerToken ⟨.ok none, .ok (some blob), fun _ => .error e₃⟩ = none ∧
    getBearerToken ⟨.ok none, .ok (some blob), fun _ => .ok (some tok)⟩ = some tok ∧
    getBearerToken ⟨.ok none, .ok (some blob), fun _ => .ok none⟩ = none ∧
    getBearerToken ⟨.ok (some ""), .ok (some blob), fun _ => .ok (some tok)⟩ = some tok := by
  refine ⟨?_, rfl, rfl, rfl, ?_, ?_, ?_, ?_⟩ <;>
    simp [getBearerToken, strTruthy, ht, hblob, htok]

/-- Witness for C8 on concrete storage states. -/
theorem getBearerToken_fail_closed_witness :
    getBearerToken ⟨.ok (some "tA"), .ok none, fun _ => .ok none⟩ = some "tA" ∧
    getBearerToken ⟨.error "x", .ok none, fun _ => .ok none⟩ = none ∧
    getBearerToken ⟨.ok none, .error "y", fun _ => .ok none⟩ = none ∧
    getBearerToken ⟨.ok none, .ok none, fun _ => .ok none⟩ = none ∧
    getBearerToken ⟨.ok none, .ok (some "bb"), fun _ => .error "z"⟩ = none ∧
    getBearerToken ⟨.ok none, .ok (some "bb"), fun _ => .ok (some "t2")⟩ = some "t2" ∧
    getBearerToken ⟨.ok none, .ok (some "bb"), fun _ => .ok none⟩ = none ∧
    getBearerToken ⟨.ok (some ""), .ok (some "bb"), fun _ => .ok (some "t2")⟩ = some "t2" :=
  getBearerToken_fail_closed "tA" "bb" "t2" "x" "y" "z" (.ok none) (fun _ => .ok none)
    (by decide) (by decide) (by decide)

/-- C9: on a PUT to an owned entry, a body carrying mood with the explicit
JSON null clears the stored mood, while a body without the mood key keeps
the prior mood; both succeed with 200 and bump updatedAt. -/
theorem update_mood_null_vs_absent (db : List Entry) (s : Session) (i : String)
    (now : Nat) (e : Entry)
    (hid : db.filter (fun x => x.id == i) = [e])
    (howner : e.userId = s.userId) :
    updateEntry db (some s) i ⟨none, none, some none, none⟩ now =
      (⟨200, .entry { e with updatedAt := now, mood := none }⟩,
       db.map (fun x => if x.id == i
         then applyPatch ⟨none, none, some none, none⟩ now x else x)) ∧
    updateEntry db (some s) i ⟨none, none, none, none⟩ now =
      (⟨200, .entry { e with updatedAt := now }⟩,
       db.map (fun x => if x.id == i
         then applyPatch ⟨none, none, none, none⟩ now x else x)) :=
  ⟨updateEntry_found db s i ⟨none, none, some none, none⟩ now e hid howner (Or.inl rfl),
   updateEntry_found db s i ⟨none, none, none, none⟩ now e hid howner (Or.inl rfl)⟩

/-- Witness for C9 on a concrete entry whose mood was calm: explicit null
clears it, absence keeps it. -/
theorem update_mood_null_vs_absent_witness :
    updateEntry [⟨"e1", "u1", "T", "C", some "calm", "note", 10, 10⟩] (some ⟨"u1"⟩) "e1"
        ⟨none, none, some none, none⟩ 20 =
      (⟨200, .entry { (⟨"e1", "u1", "T", "C", some "calm", "note", 10, 10⟩ : Entry) with
          updatedAt := 20, mood := none }⟩,
       ([⟨"e1", "u1", "T", "C", some "calm", "note", 10, 10⟩] : List Entry).map
         (fun x => if x.id == "e1"
           then applyPatch ⟨none, none, some none, none⟩ 20 x else x)) ∧
    updateEntry [⟨"e1", "u1", "T", "C", some "calm", "note", 10, 10⟩] (some ⟨"u1"⟩) "e1"
        ⟨none, none, none, none⟩ 20 =
      (⟨200, .entry { (⟨"e1", "u1", "T", "C", some "calm", "note", 10, 10⟩ : Entry) with
          updatedAt := 20 }⟩,
       ([⟨"e1", "u1", "T", "C", some "calm", "note", 10, 10⟩] : List Entry).map
         (fun x => if x.id == "e1"
           then applyPatch ⟨none, none, none, none⟩ 20 x else x)) :=
  update_mood_null_vs_absent [⟨"e1", "u1", "T", "C", some "calm", "note", 10, 10⟩]
    ⟨"u1"⟩ "e1" 20 ⟨"e1", "u1", "T", "C", some "calm", "note", 10, 10⟩ (by decide) rfl

/-- C10: authenticatedApiCall issues its request with Authorization equal
to Bearer of the session token; the token header is appended after the
caller's headers, so under last-binding-wins object-spread semantics a
caller-supplied Authorization entry is overridden. -/
theorem authenticated_call_bearer_wins (backendUrl t endpoint : String)
    (options : RequestInit) (hb : backendUrl ≠ "") (ht : t ≠ "") :
    authenticatedApiCallRequest backendUrl (some ⟨some t⟩) endpoint options =
      .ok { url := backendUrl ++ endpoint
            method := options.method
            headers := ("Content-Type", "application/json") ::
              (options.headers ++ [("Authorization", "Bearer " ++ t)])
            body := options.body } ∧
    headerLookup (("Content-Type", "application/json") ::
        (options.headers ++ [("Authorization", "Bearer " ++ t)])) "Authorization" =
      some ("Bearer " ++ t) := by
  constructor
  · simp [authenticatedApiCallRequest, apiCallRequest, hb, ht]
  · rw [← List.cons_append]
    exact headerLookup_append_last _ _ _

/-- Witness for C10: a caller-supplied Authorization header loses to the
session token on a concrete request. -/
theorem authenticated_call_bearer_wins_witness :
    authenticatedApiCallRequest "http://b" (some ⟨some "T"⟩) "/api"
        ⟨some "GET", [("Authorization", "Bearer EVIL")], none⟩ =
      .ok { url := "http://b" ++ "/api"
            method := some "GET"
            headers := ("Content-Type", "application/json") ::
              ([("Authorization", "Bearer EVIL")] ++ [("Authorization", "Bearer " ++ "T")])
            body := none } ∧
    headerLookup (("Content-Type", "application/json") ::
        ([("Authorization", "Bearer EVIL")] ++ [("Authorization", "Bearer " ++ "T")]))
        "Authorization" =
      some ("Bearer " ++ "T") :=
  authenticated_call_bearer_wins "http://b" "T" "/api"
    ⟨some "GET", [("Authorization", "Bearer EVIL")], none⟩ (by decide) (by decide)

end JournalApp
